import Mathlib

/-!
# Sloth.js: section navigation, reveal staggering, start-up wiring, contact form

A shallow embedding of `src/Sloth.js`.

The DOM is represented by the parts of it the script reads and writes while
navigating:

* every `.reveal` element of the document, in document order, with its `show`
  class and its inline `transitionDelay`; an element is addressed by its
  position in that list;
* every `.section` element, with its id, its `active` class, its `aria-hidden`
  attribute and the addresses of its `.reveal` descendants (what
  `section.querySelectorAll('.reveal')` returns);
* every `.nav-link` element with its `data-section` attribute and its `active`
  class;
* the ids carried by elements that are not sections (for
  `document.getElementById`), the `.timeline` container and the
  `.connector-svg` overlay, the URL hash, and the queue of callbacks handed to
  `requestAnimationFrame` that have not run yet.

Two browser services are used by the script with text built from a section
id. `location.hash` after `history.replaceState(null, '', '#' + id)` follows
the URL standard (`locationHashFor`). `document.querySelector` on the
selector of line 328 is modelled for targets that a CSS string takes
literally; for the other targets its outcome is read from the environment.

Inline styles of the nav bar, of the svg path and of the roadmap line, the
classes of the hamburger menu, page scrolling and the decorative particles are
written by the script but never read back by the navigation code; they are
not part of `Page`.
-/

namespace Sloth

/-! ## Data model -/

/-- A `.reveal` element: presence of the `show` class and the inline
`style.transitionDelay` (the empty string when unset). -/
structure Reveal where
  shown : Bool
  transitionDelay : String
  deriving DecidableEq, Repr

/-- A `.section` element. `reveals` holds the addresses of its `.reveal`
descendants in document order. -/
structure Section where
  id : String
  active : Bool
  ariaHidden : String
  reveals : List Nat
  deriving DecidableEq, Repr

/-- A `.nav-link` element; `dataSection` is `link.dataset.section`
(`none` when the attribute is missing). -/
structure NavLink where
  dataSection : Option String
  active : Bool
  deriving DecidableEq, Repr

/-- The outcome of the `document.querySelector` call of line 328: a
`SyntaxError` exception (the selector is not valid CSS), or the first matching
nav link, if any. -/
inductive Query where
  | syntaxError
  | result (link : Option NavLink)
  deriving DecidableEq, Repr

/-- What the script gets from its environment: the reduced-motion preference
(read once, line 7), whether `history.replaceState` succeeds (the call sits
in a `try` whose `catch` ignores the failure, lines 114-116), and the outcome
of `document.querySelector` on the selector of line 328 for a target that
contains a character with a special meaning inside a CSS string (there the
outcome depends on how the browser parses the resulting selector text). -/
structure Env where
  prefersReduced : Bool
  historyOk : Bool
  rawSelector : String → Query

/-- The page state the navigation code works on. -/
structure Page where
  reveals : List Reveal
  sections : List Section
  navLinks : List NavLink
  /-- ids of elements other than the `.section` elements -/
  otherIds : List String
  /-- the `.reveal` descendants of the first `.timeline` element, if there is one -/
  timeline : Option (List Nat)
  /-- whether a `.connector-svg` element exists -/
  connectorSvg : Bool
  /-- the value of `location.hash`: empty, or `#` followed by the fragment -/
  hash : String
  /-- addresses captured by the pending `requestAnimationFrame` callbacks, oldest first -/
  frames : List Nat
  deriving DecidableEq, Repr

/-! ## Element updates -/

/-- Apply `f` to the element at address `a`; other elements are untouched. -/
def updateAt (rs : List Reveal) (a : Nat) (f : Reveal → Reveal) : List Reveal :=
  match rs, a with
  | [], _ => []
  | r :: rest, 0 => f r :: rest
  | r :: rest, a + 1 => r :: updateAt rest a f

/-- The effect of `el.classList.add('show')`. -/
def addShow (r : Reveal) : Reveal := { r with shown := true }

/-- The effect of `el.style.transitionDelay = d`. -/
def setDelay (d : String) (r : Reveal) : Reveal := { r with transitionDelay := d }

/-- The effect of lines 104-105: `classList.remove('show')` and
`style.transitionDelay = ''`. -/
def resetReveal (r : Reveal) : Reveal := { r with shown := false, transitionDelay := "" }

/-- The stagger of line 83 in milliseconds: `idx * 80`. -/
def delayMs (idx : Nat) : Nat := idx * 80

/-- The string written at line 83: the number `idx * 80` followed by `ms`
(JavaScript prints an integer below `10^21` as its decimal digits). -/
def delayText (idx : Nat) : String := toString (delayMs idx) ++ "ms"

/-- The body of `items.forEach(el => el.classList.add('show'))`. -/
def showAll (items : List Nat) (rs : List Reveal) : List Reveal :=
  items.foldl (fun acc a => updateAt acc a addShow) rs

/-- The `forEach` of lines 103-106 over the `.reveal` descendants of a
section that is being deactivated. -/
def hideAll (items : List Nat) (rs : List Reveal) : List Reveal :=
  items.foldl (fun acc a => updateAt acc a resetReveal) rs

/-- The `forEach((el, idx) => ...)` of lines 82-86, started at index `idx`:
each element gets its delay written and one animation-frame callback queued. -/
def stagger : Nat → List Nat → List Reveal → List Nat → List Reveal × List Nat
  | _, [], rs, fr => (rs, fr)
  | idx, a :: items, rs, fr =>
      stagger (idx + 1) items (updateAt rs a (setDelay (delayText idx))) (fr ++ [a])

/-- Function `revealSection(section)`, lines 75-87, on the `.reveal` descendants
`items` of the container: returns the elements and the callback queue. -/
def revealSection (env : Env) (items : List Nat) (rs : List Reveal) (fr : List Nat) :
    List Reveal × List Nat :=
  if items.isEmpty then (rs, fr)
  else if env.prefersReduced then (showAll items rs, fr)
  else stagger 0 items rs fr

/-- Run every queued animation-frame callback (`el.classList.add('show')`),
oldest first, and empty the queue. -/
def runFrames (p : Page) : Page :=
  { p with reveals := showAll p.frames p.reveals, frames := [] }

/-! ## Navigation -/

/-- Function `setActiveNavLink(id)`, lines 58-72: `classList.toggle('active', active)`
with `active = (link.dataset.section === id)`. Scrolling the link into view
does not change the page state. -/
def setActiveNavLink (id : String) (links : List NavLink) : List NavLink :=
  links.map fun link => { link with active := decide (link.dataSection = some id) }

/-- The `sections.forEach` of lines 92-108, threading the `.reveal` elements
and the callback queue through the sections in document order. -/
def showSections (env : Env) (id : String) :
    List Section → List Reveal → List Nat → List Section × List Reveal × List Nat
  | [], rs, fr => ([], rs, fr)
  | s :: rest, rs, fr =>
      if s.id = id then
        let r := revealSection env s.reveals rs fr
        let t := showSections env id rest r.1 r.2
        ({ s with active := true, ariaHidden := "false" } :: t.1, t.2.1, t.2.2)
      else
        let t := showSections env id rest (hideAll s.reveals rs) fr
        ({ s with active := false, ariaHidden := "true" } :: t.1, t.2.1, t.2.2)

/-- The part of `animateTimeline()` (lines 228-276) that touches the page
state: nothing when the timeline or the svg is missing, otherwise the final
`revealSection(timeline)`. -/
def animateTimeline (env : Env) (p : Page) : Page :=
  match p.timeline, p.connectorSvg with
  | some items, true =>
      let r := revealSection env items p.reveals p.frames
      { p with reveals := r.1, frames := r.2 }
  | _, _ => p

/-- Code points that the URL parser copies into a fragment unchanged: printable
ASCII (`!` to `~`) other than the double quote, `<`, `>` and the backtick. All
other code points are in the fragment percent-encode set, or are stripped. -/
def fragmentKeeps (c : Char) : Bool :=
  decide (0x21 ≤ c.toNat) && decide (c.toNat ≤ 0x7E) &&
    !decide (c.toNat ∈ [0x22, 0x3C, 0x3E, 0x60])

/-- Every character of the id is copied into a URL fragment unchanged. -/
def fragmentSafe (id : String) : Bool := id.toList.all fragmentKeeps

/-- The UTF-8 bytes of a code point. -/
def utf8Bytes (n : Nat) : List Nat :=
  if n < 0x80 then [n]
  else if n < 0x800 then [0xC0 + n / 64, 0x80 + n % 64]
  else if n < 0x10000 then [0xE0 + n / 4096, 0x80 + n / 64 % 64, 0x80 + n % 64]
  else [0xF0 + n / 262144, 0x80 + n / 4096 % 64, 0x80 + n / 64 % 64, 0x80 + n % 64]

/-- An upper-case hexadecimal digit. -/
def hexDigit (n : Nat) : Char := "0123456789ABCDEF".toList.getD n '0'

/-- A percent-encoded byte: `%` and two hexadecimal digits. -/
def percentByte (b : Nat) : List Char := ['%', hexDigit (b / 16), hexDigit (b % 16)]

/-- UTF-8 percent-encoding of one code point with the fragment percent-encode set. -/
def encodeFragmentChar (c : Char) : List Char :=
  if fragmentKeeps c then [c] else (utf8Bytes c.toNat).flatMap percentByte

/-- The value of `location.hash` after `history.replaceState(null, '', '#' + id)`
has succeeded (line 115), following the URL standard: trailing C0 controls and
spaces of the input are removed, then every tab and newline; the rest is
percent-encoded into the fragment; the getter returns the empty string for an
empty fragment and `#` followed by the fragment otherwise. -/
def locationHashFor (id : String) : String :=
  let trimmed := (id.toList.reverse.dropWhile fun c => decide (c.toNat ≤ 0x20)).reverse
  let kept := trimmed.filter fun c => !decide (c.toNat ∈ [0x09, 0x0A, 0x0D])
  let fragment := kept.flatMap encodeFragmentChar
  if fragment.isEmpty then "" else String.mk ('#' :: fragment)

/-- Function `showSection(id)`, lines 90-128. `animateRoadmap()` only writes the inline
style of `.roadmap-line` and is therefore the identity on `Page`. -/
def showSection (env : Env) (id : String) (p : Page) : Page :=
  if id = "" then p
  else
    let t := showSections env id p.sections p.reveals p.frames
    let p1 : Page :=
      { p with
        sections := t.1
        reveals := t.2.1
        frames := t.2.2
        navLinks := setActiveNavLink id p.navLinks
        hash := if env.historyOk then locationHashFor id else p.hash }
    if id = "about" then animateTimeline env p1 else p1

/-- The click handler of a nav link, lines 132-137. -/
def clickNavLink (env : Env) (link : NavLink) (p : Page) : Page :=
  match link.dataSection with
  | none => p
  | some target => if target = "" then p else showSection env target p

/-- The list `navLinks.map(n => n.dataset.section).filter(Boolean)`, line 318. -/
def navIds (p : Page) : List String :=
  p.navLinks.filterMap fun link =>
    match link.dataSection with
    | some target => if target = "" then none else some target
    | none => none

/-- The lookup `document.querySelector('.section.active')`: the first active section. -/
def activeSection (p : Page) : Option Section :=
  p.sections.find? fun s => s.active

/-- The text of the id stands for itself between the double quotes of a CSS
string: it has no double quote, no backslash, no line break (LF, CR, FF) and
no NUL. -/
def selectorSafe (id : String) : Bool :=
  id.toList.all fun c => !decide (c.toNat ∈ [0x00, 0x0A, 0x0C, 0x0D, 0x22, 0x5C])

/-- The lookup of line 328, `document.querySelector` on the attribute selector
for `data-section` with the raw id pasted between double quotes. For a
`selectorSafe` id the selector is valid and selects the nav links whose
`data-section` equals `id`; the first one is returned. For any other id the
browser decides: a double quote in the id ends the string early and a
backslash starts an escape, so the resulting text may be rejected or may
select other elements. -/
def queryNavLink (env : Env) (p : Page) (id : String) : Query :=
  if selectorSafe id then
    .result (p.navLinks.find? fun link => decide (link.dataSection = some id))
  else env.rawSelector id

/-- The window `keydown` handler, lines 316-331. `idx - 1` is truncated
subtraction, which is `Math.max(0, idx - 1)`; `List.indexOf` returns the
length of the list where JavaScript returns `-1`. `link.click()` runs the
click listener of lines 132-137 (the menu listener of lines 34-42, when
installed, only changes the classes of the menu). A `SyntaxError` thrown by
`querySelector` ends the handler; nothing has been written by then. -/
def keydown (env : Env) (key : String) (p : Page) : Page :=
  if key ≠ "ArrowLeft" ∧ key ≠ "ArrowRight" then p
  else
    let ids := navIds p
    let currentId : Option String :=
      match activeSection p with
      | some s => some s.id
      | none => ids.head?
    match currentId with
    | none => p
    | some cur =>
        let idx := ids.indexOf cur
        if ids.length ≤ idx then p
        else
          let nextIdx :=
            if key = "ArrowLeft" then idx - 1 else min (ids.length - 1) (idx + 1)
          if nextIdx ≠ idx then
            match ids[nextIdx]? with
            | none => p
            | some id =>
                match queryNavLink env p id with
                | .syntaxError => p
                | .result none => p
                | .result (some link) => clickNavLink env link p
          else p

/-- The test `document.getElementById(id) !== null`: some element, a section or not,
carries the id. -/
def hasElementWithId (p : Page) (id : String) : Bool :=
  decide (id ∈ p.sections.map Section.id) || decide (id ∈ p.otherIds)

/-- The expression `(location.hash || '').replace('#', '')`: the first `#` is removed. -/
def stripHash (hash : String) : String :=
  String.mk (hash.toList.erase '#')

/-- Function `initialShow()`, lines 149-159. -/
def initialShow (env : Env) (p : Page) : Page :=
  let initialHash := stripHash p.hash
  if initialHash ≠ "" ∧ hasElementWithId p initialHash = true then
    showSection env initialHash p
  else
    let p1 := showSection env "home" p
    if p1.hash = "" ∧ env.historyOk = true then { p1 with hash := "#home" } else p1

/-- The end of the main `DOMContentLoaded` handler, lines 333-351, on the page
state: with reduced motion every `.reveal` element of the document gets
`show`; then `initialShow()` runs. -/
def mainLoad (env : Env) (p : Page) : Page :=
  let p0 : Page :=
    if env.prefersReduced then
      { p with reveals := showAll (List.range p.reveals.length) p.reveals }
    else p
  initialShow env p0

/-- A sequence of `showSection` calls, in order. -/
def runShows (env : Env) (ids : List String) (p : Page) : Page :=
  ids.foldl (fun acc id => showSection env id acc) p

/-! ## Predicates used by the properties -/

/-- What lines 93-107 do to the flags of one section when `showSection(id)`
visits it. -/
def markSection (id : String) (s : Section) : Section :=
  if s.id = id then { s with active := true, ariaHidden := "false" }
  else { s with active := false, ariaHidden := "true" }

/-- Exactly one section carries `active`; the active section has
`aria-hidden = 'false'` and every other section has `aria-hidden = 'true'`. -/
def ExactlyOneActive (p : Page) : Prop :=
  (p.sections.filter fun s => s.active).length = 1 ∧
    ∀ s ∈ p.sections, s.ariaHidden = if s.active then "false" else "true"

instance (p : Page) : Decidable (ExactlyOneActive p) := by
  unfold ExactlyOneActive
  infer_instance

/-- A nav link mirrors its target: it carries `active` exactly when some
section whose id is the link's `data-section` carries `active`. -/
def Mirrors (p : Page) (link : NavLink) : Prop :=
  link.active = true ↔ ∃ s ∈ p.sections, link.dataSection = some s.id ∧ s.active = true

instance (p : Page) (link : NavLink) : Decidable (Mirrors p link) := by
  unfold Mirrors
  infer_instance

/-- No `.reveal` descendant of the section carries `show` or a non-empty
`transitionDelay`. -/
def FullyHidden (p : Page) (s : Section) : Prop :=
  ∀ a ∈ s.reveals, ∀ r ∈ p.reveals[a]?, r.shown = false ∧ r.transitionDelay = ""

instance (p : Page) (s : Section) : Decidable (FullyHidden p s) := by
  unfold FullyHidden
  infer_instance

/-! ## Contact form -/

/-- How the `fetch` of line 442 ends: a response with an HTTP status, or a
rejected promise (network failure). -/
inductive FetchOutcome where
  | response (status : Nat)
  | rejected
  deriving DecidableEq, Repr

/-- The flag `response.ok`: the status is in the range 200-299. -/
def responseOk (status : Nat) : Bool := decide (200 ≤ status) && decide (status ≤ 299)

/-- What the submit handler did: the value assigned to `window.location.href`
(if any), the alerts shown, and whether `console.error` was called. -/
structure SubmitEffect where
  location : Option String
  alerts : List String
  logged : Bool
  deriving DecidableEq, Repr

/-- The text of both alerts, lines 454 and 457. -/
def submitAlert : String := "Oops! There was a problem submitting your form."

/-- The submit handler of the contact form, lines 435-460, as a function of
the outcome of the `fetch`. -/
def submitHandler : FetchOutcome → SubmitEffect
  | .response status =>
      if responseOk status then
        { location := some "/thank-you.html", alerts := [], logged := false }
      else
        { location := none, alerts := [submitAlert], logged := false }
  | .rejected => { location := none, alerts := [submitAlert], logged := true }

/-- What the user sees of a `SubmitEffect`: the location change and the alerts. -/
def pageEffect (e : SubmitEffect) : Option String × List String := (e.location, e.alerts)

/-! ## Start-up wiring -/

/-- The elements the three `DOMContentLoaded` handlers look up. -/
inductive Elem where
  | nav | menuToggle | navLinksContainer | visualLayer | timeline | connectorSvg
  | roadmapLine | contactForm | joinJungle | extraButtons
  deriving DecidableEq, Repr

/-- Which of the elements the document has. -/
abbrev Dom := Elem → Bool

/-- The result of `document.querySelector` / `document.getElementById`: the element, or
nothing (`null`). -/
def lookup (d : Dom) (e : Elem) : Option Elem := if d e then some e else none

/-- The listeners and one-off set-up steps a handler installs. -/
inductive Feature where
  | menuToggleClick | menuCloseOnLink | navPadding | navLinkClick | visualLayerInit
  | resizeListener | keydownListener | initialShow | contactSubmit | joinClick
  deriving DecidableEq, Repr

/-- The main handler, lines 2-352: the menu is wired only when both the
toggle and the container exist (line 13), the nav padding is applied only
when `nav` exists (line 47), the visual layer is filled only when it exists
(line 163); the rest needs no optional element. -/
def mainHandler (d : Dom) : Except String (List Feature) :=
  let menu :=
    match lookup d .menuToggle, lookup d .navLinksContainer with
    | some _, some _ => [Feature.menuToggleClick, Feature.menuCloseOnLink]
    | _, _ => []
  let visual :=
    match lookup d .visualLayer with
    | some _ => [Feature.visualLayerInit]
    | none => []
  let padding :=
    match lookup d .nav with
    | some _ => [Feature.navPadding]
    | none => []
  .ok (menu ++ [Feature.navLinkClick] ++ visual ++
    [Feature.resizeListener, Feature.keydownListener] ++ padding ++ [Feature.initialShow])

/-- The contact-form handler, lines 431-462: `if (form)` guards the wiring. -/
def contactHandler (d : Dom) : Except String (List Feature) :=
  match lookup d .contactForm with
  | some _ => .ok [Feature.contactSubmit]
  | none => .ok []

/-- The last handler, lines 463-471: `joinBtn.addEventListener(...)` is
called on the result of the lookup with no guard, so a missing button raises
a `TypeError`. `extraBtns` is only dereferenced inside the click listener. -/
def joinHandler (d : Dom) : Except String (List Feature) :=
  match lookup d .joinJungle with
  | some _ => .ok [Feature.joinClick]
  | none => .error "TypeError: joinBtn is null"

/-! ## Sample pages -/

/-- The three-character target made of the letter `a`, a double quote and the
letter `b`. -/
def quotedTarget : String := String.mk ['a', Char.ofNat 0x22, 'b']

/-- Animations allowed, `history.replaceState` available. The only target of
the sample pages that is not `selectorSafe` is `quotedTarget`; in the selector
built from it the string ends after `a` and what follows is not valid CSS, so
`querySelector` throws. -/
def envMotion : Env :=
  { prefersReduced := false, historyOk := true, rawSelector := fun _ => .syntaxError }

/-- Reduced motion requested, otherwise as `envMotion`. -/
def envReduced : Env :=
  { prefersReduced := true, historyOk := true, rawSelector := fun _ => .syntaxError }

/-- Two sections, `home` and `about`, one `.reveal` child each, one nav link
per section, nothing on display yet. -/
def twoSections : Page where
  reveals := [⟨false, ""⟩, ⟨false, ""⟩]
  sections := [⟨"home", false, "true", [0]⟩, ⟨"about", false, "true", [1]⟩]
  navLinks := [⟨some "home", false⟩, ⟨some "about", false⟩]
  otherIds := []
  timeline := none
  connectorSvg := false
  hash := ""
  frames := []

/-- The page `twoSections` with `home` on display and a third nav link whose
target `blog` is not the id of any section. -/
def danglingLink : Page where
  reveals := [⟨true, "0ms"⟩, ⟨false, ""⟩]
  sections := [⟨"home", true, "false", [0]⟩, ⟨"about", false, "true", [1]⟩]
  navLinks := [⟨some "home", true⟩, ⟨some "about", false⟩, ⟨some "blog", false⟩]
  otherIds := []
  timeline := none
  connectorSvg := false
  hash := "#home"
  frames := []

/-- The page `twoSections` with `home` on display and a nav bar that lists
`home` twice: first, and again after `about`. -/
def repeatedNav : Page where
  reveals := [⟨true, "0ms"⟩, ⟨false, ""⟩]
  sections := [⟨"home", true, "false", [0]⟩, ⟨"about", false, "true", [1]⟩]
  navLinks := [⟨some "home", true⟩, ⟨some "about", false⟩, ⟨some "home", true⟩]
  otherIds := []
  timeline := none
  connectorSvg := false
  hash := "#home"
  frames := []

/-- The page `twoSections` as it is loaded from a URL ending in
`#join-jungle`, with the button and the container of lines 464-465 present. -/
def joinHashPage : Page where
  reveals := [⟨false, ""⟩, ⟨false, ""⟩]
  sections := [⟨"home", false, "true", [0]⟩, ⟨"about", false, "true", [1]⟩]
  navLinks := [⟨some "home", false⟩, ⟨some "about", false⟩]
  otherIds := ["join-jungle", "extra-buttons"]
  timeline := none
  connectorSvg := false
  hash := "#join-jungle"
  frames := []

/-- Sections `home` (on display) and `quotedTarget`, with one nav link each;
the two targets are distinct. -/
def quotedNav : Page where
  reveals := []
  sections := [⟨"home", true, "false", []⟩, ⟨quotedTarget, false, "true", []⟩]
  navLinks := [⟨some "home", true⟩, ⟨some quotedTarget, false⟩]
  otherIds := []
  timeline := none
  connectorSvg := false
  hash := "#home"
  frames := []

/-- Two sections that both carry the id `home` (duplicate ids are invalid
markup, but the DOM accepts them), nothing on display yet. -/
def twinSections : Page where
  reveals := []
  sections := [⟨"home", false, "true", []⟩, ⟨"home", false, "true", []⟩]
  navLinks := [⟨some "home", false⟩]
  otherIds := []
  timeline := none
  connectorSvg := false
  hash := ""
  frames := []

/-- A document that has every looked-up element except the `join-jungle` button. -/
def noJoinButton : Dom := fun e => decide (e ≠ Elem.joinJungle)

/-! ## Element updates: lookup lemmas -/

theorem getElem?_updateAt (rs : List Reveal) (a b : Nat) (f : Reveal → Reveal) :
    (updateAt rs a f)[b]? = if b = a then rs[b]?.map f else rs[b]? := by
  induction rs generalizing a b with
  | nil => simp [updateAt]
  | cons r rest ih =>
    cases a with
    | zero => cases b <;> simp [updateAt]
    | succ a =>
      cases b with
      | zero => simp [updateAt]
      | succ b => simp [updateAt, ih]

theorem length_updateAt (rs : List Reveal) (a : Nat) (f : Reveal → Reveal) :
    (updateAt rs a f).length = rs.length := by
  induction rs generalizing a with
  | nil => simp [updateAt]
  | cons r rest ih =>
    cases a with
    | zero => simp [updateAt]
    | succ a => simp [updateAt, ih]

theorem foldl_updateAt_getElem? (f : Reveal → Reveal) (hf : ∀ r, f (f r) = f r)
    (items : List Nat) (rs : List Reveal) (b : Nat) :
    (items.foldl (fun acc a => updateAt acc a f) rs)[b]? =
      if b ∈ items then rs[b]?.map f else rs[b]? := by
  induction items generalizing rs with
  | nil => simp
  | cons a items ih =>
    simp only [List.foldl_cons, ih, getElem?_updateAt, List.mem_cons]
    by_cases hba : b = a
    · subst hba
      by_cases hmem : b ∈ items
      · cases h : rs[b]? <;> simp [hmem, hf]
      · simp [hmem]
    · simp [hba]

theorem foldl_updateAt_length (f : Reveal → Reveal) (items : List Nat) (rs : List Reveal) :
    (items.foldl (fun acc a => updateAt acc a f) rs).length = rs.length := by
  induction items generalizing rs with
  | nil => simp
  | cons a items ih => simp [ih, length_updateAt]

theorem showAll_getElem? (items : List Nat) (rs : List Reveal) (b : Nat) :
    (showAll items rs)[b]? = if b ∈ items then rs[b]?.map addShow else rs[b]? :=
  foldl_updateAt_getElem? addShow (fun _ => rfl) items rs b

theorem hideAll_getElem? (items : List Nat) (rs : List Reveal) (b : Nat) :
    (hideAll items rs)[b]? = if b ∈ items then rs[b]?.map resetReveal else rs[b]? :=
  foldl_updateAt_getElem? resetReveal (fun _ => rfl) items rs b

theorem stagger_frames (idx : Nat) (items : List Nat) (rs : List Reveal) (fr : List Nat) :
    (stagger idx items rs fr).2 = fr ++ items := by
  induction items generalizing idx rs fr with
  | nil => simp [stagger]
  | cons a items ih => simp [stagger, ih]

theorem stagger_getElem?_of_not_mem (idx : Nat) (items : List Nat) (rs : List Reveal)
    (fr : List Nat) (b : Nat) (hb : b ∉ items) :
    (stagger idx items rs fr).1[b]? = rs[b]? := by
  induction items generalizing idx rs fr with
  | nil => simp [stagger]
  | cons a items ih =>
    simp only [List.mem_cons, not_or] at hb
    simp [stagger, ih _ _ _ hb.2, getElem?_updateAt, hb.1]

theorem stagger_getElem?_index (idx : Nat) (items : List Nat) (rs : List Reveal)
    (fr : List Nat) (hnd : items.Nodup) (k : Nat) (hk : k < items.length) :
    (stagger idx items rs fr).1[items[k]]? =
      rs[items[k]]?.map (setDelay (delayText (idx + k))) := by
  induction items generalizing idx rs fr k with
  | nil => simp at hk
  | cons a items ih =>
    have hnd' := List.nodup_cons.mp hnd
    cases k with
    | zero =>
      simp [stagger, stagger_getElem?_of_not_mem _ _ _ _ _ hnd'.1, getElem?_updateAt]
    | succ k =>
      have hk' : k < items.length := by simpa using hk
      have hne : items[k] ≠ a := by
        intro h
        exact hnd'.1 (h ▸ List.getElem_mem hk')
      simp only [stagger, List.getElem_cons_succ]
      rw [ih (idx + 1) _ _ hnd'.2 k hk', getElem?_updateAt, if_neg hne,
        Nat.add_assoc, Nat.add_comm 1 k]

/-! ## The hash written for an id the URL parser leaves alone -/

theorem dropWhile_of_all_false (q : Char → Bool) (l : List Char)
    (h : ∀ c ∈ l, q c = false) : l.dropWhile q = l := by
  cases l with
  | nil => rfl
  | cons c rest => simp [List.dropWhile_cons, h c (List.mem_cons_self _ _)]

theorem flatMap_encodeFragmentChar_of_keeps (l : List Char)
    (h : ∀ c ∈ l, fragmentKeeps c = true) : l.flatMap encodeFragmentChar = l := by
  induction l with
  | nil => rfl
  | cons c rest ih =>
    have hc : fragmentKeeps c = true := h c (List.mem_cons_self _ _)
    have hrest : ∀ d ∈ rest, fragmentKeeps d = true :=
      fun d hd => h d (List.mem_cons_of_mem _ hd)
    simp [List.flatMap_cons, encodeFragmentChar, hc, ih hrest]

theorem fragmentKeeps_bounds (c : Char) (h : fragmentKeeps c = true) :
    0x21 ≤ c.toNat ∧ c.toNat ∉ [0x09, 0x0A, 0x0D] := by
  unfold fragmentKeeps at h
  simp only [Bool.and_eq_true, decide_eq_true_eq] at h
  refine ⟨h.1.1, ?_⟩
  intro hmem
  simp only [List.mem_cons, List.mem_singleton, List.not_mem_nil, or_false] at hmem
  omega

theorem locationHashFor_of_fragmentSafe (id : String) (hid : id ≠ "")
    (hsafe : fragmentSafe id = true) : locationHashFor id = "#" ++ id := by
  have hall : ∀ c ∈ id.toList, fragmentKeeps c = true := by
    simpa [fragmentSafe, List.all_eq_true] using hsafe
  have htrim : (id.toList.reverse.dropWhile fun c => decide (c.toNat ≤ 0x20)).reverse
      = id.toList := by
    rw [dropWhile_of_all_false, List.reverse_reverse]
    intro c hc
    have := (fragmentKeeps_bounds c (hall c (List.mem_reverse.mp hc))).1
    simp only [decide_eq_false_iff_not]
    omega
  have hkeep : (id.toList.filter fun c => !decide (c.toNat ∈ [0x09, 0x0A, 0x0D]))
      = id.toList := by
    rw [List.filter_eq_self]
    intro c hc
    have := (fragmentKeeps_bounds c (hall c hc)).2
    simpa using this
  have hne : id.toList ≠ [] := by
    intro h
    apply hid
    cases id
    simp_all
  unfold locationHashFor
  simp only [htrim, hkeep, flatMap_encodeFragmentChar_of_keeps _ hall]
  cases hl : id.toList with
  | nil => exact absurd hl hne
  | cons c rest =>
    simp only [List.isEmpty_cons, Bool.false_eq_true, if_false]
    rw [← hl]
    cases id
    rfl

/-! ## Sections, nav links and hash after `showSection` -/

theorem showSections_sections (env : Env) (id : String) (secs : List Section)
    (rs : List Reveal) (fr : List Nat) :
    (showSections env id secs rs fr).1 = secs.map (markSection id) := by
  induction secs generalizing rs fr with
  | nil => rfl
  | cons s rest ih =>
    by_cases h : s.id = id
    · simp [showSections, markSection, h, ih]
    · simp [showSections, markSection, h, ih]

theorem animateTimeline_sections (env : Env) (p : Page) :
    (animateTimeline env p).sections = p.sections := by
  unfold animateTimeline
  split <;> rfl

theorem animateTimeline_navLinks (env : Env) (p : Page) :
    (animateTimeline env p).navLinks = p.navLinks := by
  unfold animateTimeline
  split <;> rfl

theorem animateTimeline_hash (env : Env) (p : Page) :
    (animateTimeline env p).hash = p.hash := by
  unfold animateTimeline
  split <;> rfl

theorem showSection_sections (env : Env) (id : String) (p : Page) (hid : id ≠ "") :
    (showSection env id p).sections = p.sections.map (markSection id) := by
  unfold showSection
  rw [if_neg hid]
  dsimp only
  by_cases h : id = "about"
  · rw [if_pos h, animateTimeline_sections]
    exact showSections_sections env id p.sections p.reveals p.frames
  · rw [if_neg h]
    exact showSections_sections env id p.sections p.reveals p.frames

theorem showSection_navLinks (env : Env) (id : String) (p : Page) (hid : id ≠ "") :
    (showSection env id p).navLinks = setActiveNavLink id p.navLinks := by
  unfold showSection
  rw [if_neg hid]
  dsimp only
  by_cases h : id = "about"
  · rw [if_pos h, animateTimeline_navLinks]
  · rw [if_neg h]

theorem showSection_hash (env : Env) (id : String) (p : Page) (hid : id ≠ "") :
    (showSection env id p).hash =
      if env.historyOk then locationHashFor id else p.hash := by
  unfold showSection
  rw [if_neg hid]
  dsimp only
  by_cases h : id = "about"
  · rw [if_pos h, animateTimeline_hash]
  · rw [if_neg h]

theorem markSection_id (id : String) (s : Section) : (markSection id s).id = s.id := by
  unfold markSection
  split <;> rfl

theorem markSection_active (id : String) (s : Section) :
    (markSection id s).active = decide (s.id = id) := by
  unfold markSection
  split <;> simp [*]

theorem markSection_ariaHidden (id : String) (s : Section) :
    (markSection id s).ariaHidden = if (markSection id s).active then "false" else "true" := by
  unfold markSection
  split <;> simp

theorem showSection_ids (env : Env) (id : String) (p : Page) :
    (showSection env id p).sections.map Section.id = p.sections.map Section.id := by
  by_cases hid : id = ""
  · simp [showSection, hid]
  · rw [showSection_sections env id p hid, List.map_map]
    apply List.map_congr_left
    intro s _
    exact markSection_id id s

theorem runShows_ids (env : Env) (ids : List String) (p : Page) :
    (runShows env ids p).sections.map Section.id = p.sections.map Section.id := by
  induction ids generalizing p with
  | nil => rfl
  | cons id ids ih =>
    simp only [runShows, List.foldl_cons] at ih ⊢
    rw [ih, showSection_ids]

theorem runShows_append_singleton (env : Env) (ids : List String) (id : String) (p : Page) :
    runShows env (ids ++ [id]) p = showSection env id (runShows env ids p) := by
  simp [runShows, List.foldl_append]

theorem active_filter_length (id : String) (secs : List Section) :
    ((secs.map (markSection id)).filter fun s => s.active).length =
      (secs.map Section.id).count id := by
  induction secs with
  | nil => rfl
  | cons s rest ih =>
    by_cases h : s.id = id
    · simp [List.filter_cons, markSection_active, h, ih]
    · have h' : ¬ (s.id == id) = true := by simpa using h
      simp [List.filter_cons, markSection_active, h, ih, List.count_cons, h']

theorem showSection_exactlyOne (env : Env) (id : String) (p : Page)
    (hnodup : (p.sections.map Section.id).Nodup) (hid : id ≠ "")
    (hknown : id ∈ p.sections.map Section.id) :
    ExactlyOneActive (showSection env id p) := by
  unfold ExactlyOneActive
  rw [showSection_sections env id p hid]
  refine ⟨?_, ?_⟩
  · rw [active_filter_length]
    exact List.count_eq_one_of_mem hnodup hknown
  · intro s hs
    obtain ⟨t, _, rfl⟩ := List.mem_map.mp hs
    exact markSection_ariaHidden id t

/-! ## Reveal elements after `showSection` with an id that matches no section -/

theorem markSection_reveals (id : String) (s : Section) :
    (markSection id s).reveals = s.reveals := by
  unfold markSection
  split <;> rfl

theorem showSections_reveals_of_no_match (env : Env) (id : String) (secs : List Section)
    (rs : List Reveal) (fr : List Nat) (hno : ∀ s ∈ secs, s.id ≠ id) (b : Nat) :
    (showSections env id secs rs fr).2.1[b]? =
      if ∃ s ∈ secs, b ∈ s.reveals then rs[b]?.map resetReveal else rs[b]? := by
  induction secs generalizing rs with
  | nil => simp [showSections]
  | cons s rest ih =>
    have hs : s.id ≠ id := hno s (List.mem_cons_self _ _)
    have hrest : ∀ t ∈ rest, t.id ≠ id := fun t ht => hno t (List.mem_cons_of_mem _ ht)
    simp only [showSections, if_neg hs, ih _ hrest, hideAll_getElem?, List.mem_cons,
      exists_eq_or_imp]
    by_cases h1 : b ∈ s.reveals
    · by_cases h2 : ∃ t ∈ rest, b ∈ t.reveals
      · cases h : rs[b]? <;> simp [h1, h2, resetReveal]
      · simp [h1, h2]
    · simp [h1]

theorem showSection_reveals_of_ne_about (env : Env) (id : String) (p : Page)
    (hid : id ≠ "") (habout : id ≠ "about") :
    (showSection env id p).reveals = (showSections env id p.sections p.reveals p.frames).2.1 := by
  unfold showSection
  rw [if_neg hid]
  dsimp only
  rw [if_neg habout]

theorem showSection_unknown_fullyHidden (env : Env) (id : String) (p : Page)
    (hid : id ≠ "") (habout : id ≠ "about") (hunknown : id ∉ p.sections.map Section.id) :
    ∀ s ∈ (showSection env id p).sections, FullyHidden (showSection env id p) s := by
  have hno : ∀ s ∈ p.sections, s.id ≠ id := by
    intro s hs h
    exact hunknown (List.mem_map.mpr ⟨s, hs, h⟩)
  intro s hs a ha r hr
  rw [Option.mem_def] at hr
  rw [showSection_sections env id p hid] at hs
  obtain ⟨t, ht, rfl⟩ := List.mem_map.mp hs
  rw [markSection_reveals] at ha
  rw [showSection_reveals_of_ne_about env id p hid habout,
    showSections_reveals_of_no_match env id p.sections p.reveals p.frames hno a,
    if_pos ⟨t, ht, ha⟩] at hr
  cases h : p.reveals[a]? with
  | none => simp [h] at hr
  | some r0 =>
    simp only [h, Option.map_some', Option.some.injEq] at hr
    subst hr
    exact ⟨rfl, rfl⟩

theorem setActiveNavLink_active (id : String) (links : List NavLink) :
    ∀ link ∈ setActiveNavLink id links, link.active = true ↔ link.dataSection = some id := by
  intro link hlink
  unfold setActiveNavLink at hlink
  obtain ⟨l, _, rfl⟩ := List.mem_map.mp hlink
  simp

theorem showSection_mirrors (env : Env) (id : String) (p : Page) (hid : id ≠ "")
    (hknown : id ∈ p.sections.map Section.id) :
    ∀ link ∈ (showSection env id p).navLinks, Mirrors (showSection env id p) link := by
  intro link hlink
  unfold Mirrors
  rw [showSection_navLinks env id p hid] at hlink
  rw [setActiveNavLink_active id p.navLinks link hlink, showSection_sections env id p hid]
  constructor
  · intro h
    obtain ⟨t, ht, htid⟩ := List.mem_map.mp hknown
    refine ⟨markSection id t, List.mem_map.mpr ⟨t, ht, rfl⟩, ?_, ?_⟩
    · rw [markSection_id, htid, h]
    · rw [markSection_active]
      simpa using htid
  · rintro ⟨s, hs, hds, hact⟩
    obtain ⟨t, _, rfl⟩ := List.mem_map.mp hs
    rw [markSection_active] at hact
    rw [markSection_id] at hds
    have : t.id = id := by simpa using hact
    rw [hds, this]

/-! ## Arrow keys -/

theorem mem_navIds (p : Page) (id : String) :
    id ∈ navIds p ↔ id ≠ "" ∧ ∃ link ∈ p.navLinks, link.dataSection = some id := by
  unfold navIds
  rw [List.mem_filterMap]
  constructor
  · rintro ⟨link, hlink, h⟩
    cases hds : link.dataSection with
    | none => simp [hds] at h
    | some t =>
      simp only [hds] at h
      by_cases ht : t = ""
      · simp [ht] at h
      · simp only [if_neg ht, Option.some.injEq] at h
        subst h
        exact ⟨ht, link, hlink, hds⟩
  · rintro ⟨hid, link, hlink, hds⟩
    exact ⟨link, hlink, by simp [hds, hid]⟩

theorem queryNavLink_of_mem_navIds (env : Env) (p : Page) (id : String)
    (h : id ∈ navIds p) (hsafe : selectorSafe id = true) :
    ∃ link, queryNavLink env p id = .result (some link) ∧ link.dataSection = some id := by
  obtain ⟨_, l, hl, hds⟩ := (mem_navIds p id).mp h
  unfold queryNavLink
  rw [if_pos hsafe]
  cases hf : p.navLinks.find? (fun link => decide (link.dataSection = some id)) with
  | none =>
    rw [List.find?_eq_none] at hf
    exact absurd (by simpa using hds) (hf l hl)
  | some link =>
    exact ⟨link, rfl, by simpa using List.find?_some hf⟩

theorem clickNavLink_of_target (env : Env) (link : NavLink) (p : Page) (id : String)
    (hds : link.dataSection = some id) (hid : id ≠ "") :
    clickNavLink env link p = showSection env id p := by
  simp [clickNavLink, hds, hid]

theorem keydown_step (env : Env) (key : String) (p : Page) (s : Section) (i : Nat)
    (hkey : key = "ArrowLeft" ∨ key = "ArrowRight")
    (hnodup : (navIds p).Nodup) (hsafe : ∀ id ∈ navIds p, selectorSafe id = true)
    (hactive : activeSection p = some s)
    (hi : i < (navIds p).length) (hpos : (navIds p)[i] = s.id) :
    keydown env key p =
      if (if key = "ArrowLeft" then i - 1 else min ((navIds p).length - 1) (i + 1)) ≠ i then
        match (navIds p)[if key = "ArrowLeft" then i - 1
          else min ((navIds p).length - 1) (i + 1)]? with
        | none => p
        | some id => showSection env id p
      else p := by
  have hidx : (navIds p).indexOf s.id = i := by
    rw [← hpos]
    exact List.indexOf_getElem hnodup i hi
  have hk : ¬ (key ≠ "ArrowLeft" ∧ key ≠ "ArrowRight") := by
    rcases hkey with h | h <;> simp [h]
  unfold keydown
  rw [if_neg hk]
  simp only [hactive, hidx, if_neg (Nat.not_le.mpr hi)]
  generalize (if key = "ArrowLeft" then i - 1 else min ((navIds p).length - 1) (i + 1)) = j
  by_cases hj : j = i
  · simp [hj]
  · have hj' : j ≠ i := hj
    rw [if_pos hj', if_pos hj']
    cases hq : (navIds p)[j]? with
    | none => rfl
    | some id =>
      have hmem : id ∈ navIds p := List.getElem?_mem hq
      obtain ⟨link, hfind, hds⟩ := queryNavLink_of_mem_navIds env p id hmem (hsafe id hmem)
      simp only [hfind]
      exact clickNavLink_of_target env link p id hds ((mem_navIds p id).mp hmem).1

theorem showSection_activates (env : Env) (id : String) (p : Page) (hid : id ≠ "") :
    ∀ t ∈ (showSection env id p).sections,
      t.id = id → t.active = true ∧ t.ariaHidden = "false" := by
  intro t ht htid
  rw [showSection_sections env id p hid] at ht
  obtain ⟨u, _, rfl⟩ := List.mem_map.mp ht
  rw [markSection_id] at htid
  simp [markSection, htid]

/-! ## `revealSection` -/

theorem revealSection_of_motion (env : Env) (items : List Nat) (rs : List Reveal)
    (fr : List Nat) (h : env.prefersReduced = false) :
    revealSection env items rs fr = stagger 0 items rs fr := by
  cases items with
  | nil => simp [revealSection, stagger]
  | cons a items => simp [revealSection, h]

theorem revealSection_of_reduced (env : Env) (items : List Nat) (rs : List Reveal)
    (fr : List Nat) (h : env.prefersReduced = true) :
    revealSection env items rs fr = (showAll items rs, fr) := by
  cases items with
  | nil => simp [revealSection, showAll]
  | cons a items => simp [revealSection, h]

/-! ## Claims -/

/-- C1, as amended: on a page whose section ids are pairwise distinct, along
every sequence of `showSection` calls whose ids are non-empty ids of declared
sections, after each call (after the first `n` calls, for every `n ≥ 1`)
exactly one section carries `active`, that section has `aria-hidden = 'false'`
and every other section has `aria-hidden = 'true'`. -/
theorem showSection_sequence_exactly_one_active (env : Env) (p : Page) (ids : List String)
    (n : Nat) (hnodup : (p.sections.map Section.id).Nodup)
    (hknown : ∀ id ∈ ids, id ≠ "" ∧ id ∈ p.sections.map Section.id)
    (hpos : 0 < n) (hle : n ≤ ids.length) :
    ExactlyOneActive (runShows env (ids.take n) p) := by
  have hne : ids.take n ≠ [] := by
    intro h
    have hlen : (ids.take n).length = n := by simp [hle]
    rw [h] at hlen
    simp at hlen
    omega
  have hsplit := List.dropLast_append_getLast hne
  have hlast : (ids.take n).getLast hne ∈ ids :=
    List.mem_of_mem_take (List.getLast_mem hne)
  rw [← hsplit, runShows_append_singleton]
  apply showSection_exactlyOne
  · rw [runShows_ids]
    exact hnodup
  · exact (hknown _ hlast).1
  · rw [runShows_ids]
    exact (hknown _ hlast).2

/-- Witness for C1: on `twoSections`, after each of the three calls of
`home`, `about`, `home` exactly one section is active. -/
theorem showSection_sequence_exactly_one_active_witness :
    ExactlyOneActive (runShows envMotion (["home", "about", "home"].take 1) twoSections) ∧
    ExactlyOneActive (runShows envMotion (["home", "about", "home"].take 2) twoSections) ∧
    ExactlyOneActive (runShows envMotion (["home", "about", "home"].take 3) twoSections) :=
  ⟨showSection_sequence_exactly_one_active envMotion twoSections _ 1
      (by decide) (by decide) (by decide) (by decide),
   showSection_sequence_exactly_one_active envMotion twoSections _ 2
      (by decide) (by decide) (by decide) (by decide),
   showSection_sequence_exactly_one_active envMotion twoSections _ 3
      (by decide) (by decide) (by decide) (by decide)⟩

/-- Counterexample to C1 as stated: `danglingLink` has `home` on display and a
nav link whose target `blog` names no section; clicking that link runs
`showSection('blog')`, after which no section carries `active`. On
`twinSections`, where two sections share the id `home`, `showSection('home')`
leaves two sections active. -/
theorem showSection_can_leave_zero_or_two_sections_active :
    (⟨some "blog", false⟩ : NavLink) ∈ danglingLink.navLinks ∧
    ((clickNavLink envMotion ⟨some "blog", false⟩ danglingLink).sections.filter
      fun s => s.active) = [] ∧
    ¬ ExactlyOneActive (clickNavLink envMotion ⟨some "blog", false⟩ danglingLink) ∧
    ((showSection envMotion "home" twinSections).sections.filter
      fun s => s.active).length = 2 ∧
    ¬ ExactlyOneActive (showSection envMotion "home" twinSections) := by
  decide

/-- C2, as amended: `showSection(id)` is a no-op when `id` is empty. When `id`
is non-empty and is not the id of any declared section the whole body runs:
afterwards every section is without `active` and has `aria-hidden = 'true'`,
every `.reveal` child of every section is without `show` and has an empty
`transitionDelay` (for an id other than `about`, whose timeline animation
runs afterwards), a nav link carries `active` exactly when its target is `id`,
and the hash is `#id` when `history.replaceState` succeeds and `id` consists
of characters that a URL fragment keeps as they are (it keeps its old value
when `history.replaceState` throws). -/
theorem showSection_empty_is_noop_unknown_deactivates_all (env : Env) (id : String)
    (p : Page) (h : id = "" ∨ id ∉ p.sections.map Section.id) :
    (id = "" → showSection env id p = p) ∧
    (id ≠ "" →
      (∀ s ∈ (showSection env id p).sections, s.active = false ∧ s.ariaHidden = "true") ∧
      (id ≠ "about" →
        ∀ s ∈ (showSection env id p).sections, FullyHidden (showSection env id p) s) ∧
      (∀ link ∈ (showSection env id p).navLinks,
        link.active = true ↔ link.dataSection = some id) ∧
      (env.historyOk = true → fragmentSafe id = true →
        (showSection env id p).hash = "#" ++ id) ∧
      (env.historyOk = false → (showSection env id p).hash = p.hash)) := by
  refine ⟨fun he => by simp [showSection, he], fun hid => ?_⟩
  have hunknown : id ∉ p.sections.map Section.id := h.resolve_left hid
  refine ⟨?_, fun habout => showSection_unknown_fullyHidden env id p hid habout hunknown,
    ?_, ?_, ?_⟩
  · intro s hs
    rw [showSection_sections env id p hid] at hs
    obtain ⟨t, ht, rfl⟩ := List.mem_map.mp hs
    have hne : t.id ≠ id := fun e => hunknown (List.mem_map.mpr ⟨t, ht, e⟩)
    simp [markSection, hne]
  · rw [showSection_navLinks env id p hid]
    exact setActiveNavLink_active id p.navLinks
  · intro hok hsafe
    rw [showSection_hash env id p hid, if_pos hok,
      locationHashFor_of_fragmentSafe id hid hsafe]
  · intro hok
    rw [showSection_hash env id p hid, hok]
    rfl

/-- Witness for C2: the id `blog` names no section of `danglingLink`, and
after `showSection('blog')` the hash is `#blog`. -/
theorem showSection_empty_is_noop_unknown_deactivates_all_witness :
    ("blog" = "" ∨ "blog" ∉ danglingLink.sections.map Section.id) ∧
    (showSection envMotion "blog" danglingLink).hash = "#blog" :=
  ⟨Or.inr (by decide),
   ((showSection_empty_is_noop_unknown_deactivates_all envMotion "blog" danglingLink
      (Or.inr (by decide))).2 (by decide)).2.2.2.1 rfl (by decide)⟩

/-- Counterexample to C2 as stated: `blog` is non-empty and names no section of
`danglingLink`, yet `showSection('blog')` changes the sections' flags, the
reveal children, the nav links and the hash. -/
theorem showSection_unknown_id_changes_the_page :
    "blog" ∉ danglingLink.sections.map Section.id ∧
    (showSection envMotion "blog" danglingLink).sections ≠ danglingLink.sections ∧
    (showSection envMotion "blog" danglingLink).reveals ≠ danglingLink.reveals ∧
    (showSection envMotion "blog" danglingLink).navLinks ≠ danglingLink.navLinks ∧
    (showSection envMotion "blog" danglingLink).hash ≠ danglingLink.hash := by
  decide

/-- C3, evaluated at the failing input: `joinHashPage` is loaded with the hash
`#join-jungle`, which is the id of the button and not of a section;
`initialShow()` runs `showSection('join-jungle')`, after which no section is
active (`home` included) and the hash still names the button. -/
theorem initialShow_with_hash_of_non_section_activates_nothing :
    stripHash joinHashPage.hash = "join-jungle" ∧
    "join-jungle" ∉ joinHashPage.sections.map Section.id ∧
    initialShow envMotion joinHashPage = showSection envMotion "join-jungle" joinHashPage ∧
    activeSection (initialShow envMotion joinHashPage) = none ∧
    (initialShow envMotion joinHashPage).sections[0]? = some ⟨"home", false, "true", [0]⟩ := by
  decide

/-- C4, evaluated at the failing input: on `twoSections` without reduced
motion, `showSection('home')` followed at once by `showSection('about')`
leaves `about` active and `home` fully hidden, but the animation-frame
callback queued by the first call is still pending; once it has run, the
`.reveal` child of the deactivated section `home` carries `show` again. -/
theorem stale_animation_frame_reveals_deactivated_section :
    (showSection envMotion "about" (showSection envMotion "home" twoSections)).frames = [0, 1] ∧
    FullyHidden (showSection envMotion "about" (showSection envMotion "home" twoSections))
      ⟨"home", false, "true", [0]⟩ ∧
    (runFrames (showSection envMotion "about"
      (showSection envMotion "home" twoSections))).sections =
        [⟨"home", false, "true", [0]⟩, ⟨"about", true, "false", [1]⟩] ∧
    (runFrames (showSection envMotion "about"
      (showSection envMotion "home" twoSections))).reveals[0]? = some ⟨true, ""⟩ ∧
    ¬ FullyHidden (runFrames (showSection envMotion "about"
      (showSection envMotion "home" twoSections))) ⟨"home", false, "true", [0]⟩ := by
  decide

/-- C5, as amended: when the targets of the nav entries are pairwise distinct
and stand for themselves inside a CSS string (no double quote, backslash,
line break or NUL), and the active section is the section of the nav entry at
index `i`, an
`ArrowLeft` keydown at the first entry and an `ArrowRight` keydown at the last
entry leave the page unchanged (no `showSection` call); at any other position
the key runs `showSection` on the target of the adjacent entry (`i - 1` for
`ArrowLeft`, `i + 1` for `ArrowRight`), after which every section with that id
carries `active` and has `aria-hidden = 'false'`. -/
theorem keydown_clamps_at_first_and_last (env : Env) (p : Page) (s : Section) (i : Nat)
    (hnodup : (navIds p).Nodup) (hsafe : ∀ id ∈ navIds p, selectorSafe id = true)
    (hactive : activeSection p = some s)
    (hi : i < (navIds p).length) (hpos : (navIds p)[i] = s.id) :
    (i = 0 → keydown env "ArrowLeft" p = p) ∧
    (i + 1 = (navIds p).length → keydown env "ArrowRight" p = p) ∧
    (0 < i → ∃ id, (navIds p)[i - 1]? = some id ∧
      keydown env "ArrowLeft" p = showSection env id p ∧
      ∀ t ∈ (keydown env "ArrowLeft" p).sections,
        t.id = id → t.active = true ∧ t.ariaHidden = "false") ∧
    (i + 1 < (navIds p).length → ∃ id, (navIds p)[i + 1]? = some id ∧
      keydown env "ArrowRight" p = showSection env id p ∧
      ∀ t ∈ (keydown env "ArrowRight" p).sections,
        t.id = id → t.active = true ∧ t.ariaHidden = "false") := by
  have hL := keydown_step env "ArrowLeft" p s i (Or.inl rfl) hnodup hsafe hactive hi hpos
  have hR := keydown_step env "ArrowRight" p s i (Or.inr rfl) hnodup hsafe hactive hi hpos
  have hne : ¬ ("ArrowRight" = "ArrowLeft") := by decide
  simp only [if_true] at hL
  simp only [if_neg hne] at hR
  refine ⟨?_, ?_, ?_, ?_⟩
  · intro h0
    rw [hL, h0]
    simp
  · intro hlast
    have hmin : min ((navIds p).length - 1) (i + 1) = i := by omega
    rw [hR, hmin]
    simp
  · intro hpos'
    have hlt : i - 1 < (navIds p).length := by omega
    have hq : (navIds p)[i - 1]? = some (navIds p)[i - 1] := List.getElem?_eq_getElem hlt
    have hidne : (navIds p)[i - 1] ≠ "" :=
      ((mem_navIds p _).mp (List.getElem_mem hlt)).1
    have hne' : i - 1 ≠ i := by omega
    have hk : keydown env "ArrowLeft" p = showSection env (navIds p)[i - 1] p := by
      rw [hL, if_pos hne', hq]
    refine ⟨(navIds p)[i - 1], hq, hk, ?_⟩
    rw [hk]
    exact showSection_activates env _ p hidne
  · intro hlt
    have hq : (navIds p)[i + 1]? = some (navIds p)[i + 1] := List.getElem?_eq_getElem hlt
    have hidne : (navIds p)[i + 1] ≠ "" :=
      ((mem_navIds p _).mp (List.getElem_mem hlt)).1
    have hmin : min ((navIds p).length - 1) (i + 1) = i + 1 := by omega
    have hne' : i + 1 ≠ i := by omega
    have hk : keydown env "ArrowRight" p = showSection env (navIds p)[i + 1] p := by
      rw [hR, hmin, if_pos hne', hq]
    refine ⟨(navIds p)[i + 1], hq, hk, ?_⟩
    rw [hk]
    exact showSection_activates env _ p hidne

/-- Witness for C5: on `danglingLink` (nav targets `home`, `about`, `blog`,
`home` on display at index 0) `ArrowLeft` changes nothing and `ArrowRight`
runs `showSection('about')`. -/
theorem keydown_clamps_at_first_and_last_witness :
    (navIds danglingLink).Nodup ∧
    (∀ id ∈ navIds danglingLink, selectorSafe id = true) ∧
    activeSection danglingLink = some ⟨"home", true, "false", [0]⟩ ∧
    keydown envMotion "ArrowLeft" danglingLink = danglingLink ∧
    ∃ id, (navIds danglingLink)[0 + 1]? = some id ∧
      keydown envMotion "ArrowRight" danglingLink = showSection envMotion id danglingLink ∧
      ∀ t ∈ (keydown envMotion "ArrowRight" danglingLink).sections,
        t.id = id → t.active = true ∧ t.ariaHidden = "false" :=
  ⟨by decide, by decide, by decide,
   (keydown_clamps_at_first_and_last envMotion danglingLink ⟨"home", true, "false", [0]⟩ 0
      (by decide) (by decide) (by decide) (by decide) (by decide)).1 rfl,
   (keydown_clamps_at_first_and_last envMotion danglingLink ⟨"home", true, "false", [0]⟩ 0
      (by decide) (by decide) (by decide) (by decide) (by decide)).2.2.2 (by decide)⟩

/-- Counterexample to C5 as stated. The nav bar of `repeatedNav` lists `home`,
`about`, `home`; the active section `home` is the section of the last nav
entry, yet `ArrowRight` runs `showSection('about')` and changes the page. The
nav bar of `quotedNav` lists `home` and a target with a double quote; with
`home` active (first entry, not the last) `ArrowRight` makes `querySelector`
throw on the selector built from that target, and the page stays as it is,
the adjacent section not being activated. -/
theorem arrow_right_navigates_at_last_or_stays_before_last :
    (navIds repeatedNav).getLast? = some "home" ∧
    (activeSection repeatedNav).map Section.id = some "home" ∧
    keydown envMotion "ArrowRight" repeatedNav = showSection envMotion "about" repeatedNav ∧
    keydown envMotion "ArrowRight" repeatedNav ≠ repeatedNav ∧
    navIds quotedNav = ["home", quotedTarget] ∧
    (navIds quotedNav).Nodup ∧
    (activeSection quotedNav).map Section.id = some "home" ∧
    queryNavLink envMotion quotedNav quotedTarget = Query.syntaxError ∧
    keydown envMotion "ArrowRight" quotedNav = quotedNav ∧
    (activeSection (keydown envMotion "ArrowRight" quotedNav)).map Section.id = some "home" := by
  decide

/-- C6, as amended: after every `showSection(id)` with a non-empty id a nav
link carries `active` if and only if its `data-section` target equals `id`;
when `id` is the id of a declared section this mirrors the sections: a link
carries `active` if and only if the section with the link's target as id
carries `active`. -/
theorem showSection_nav_links_follow_id (env : Env) (id : String) (p : Page)
    (hid : id ≠ "") :
    (∀ link ∈ (showSection env id p).navLinks,
      link.active = true ↔ link.dataSection = some id) ∧
    (id ∈ p.sections.map Section.id →
      ∀ link ∈ (showSection env id p).navLinks, Mirrors (showSection env id p) link) := by
  refine ⟨?_, showSection_mirrors env id p hid⟩
  rw [showSection_navLinks env id p hid]
  exact setActiveNavLink_active id p.navLinks

/-- Witness for C6: after `showSection('about')` on `twoSections` every nav
link mirrors its target section. -/
theorem showSection_nav_links_follow_id_witness :
    "about" ≠ "" ∧
    ∀ link ∈ (showSection envMotion "about" twoSections).navLinks,
      Mirrors (showSection envMotion "about" twoSections) link :=
  ⟨by decide,
   (showSection_nav_links_follow_id envMotion "about" twoSections (by decide)).2 (by decide)⟩

/-- Counterexample to C6 as stated: after `showSection('blog')` on
`danglingLink` the link targeting `blog` carries `active` although no section
has that id, so it does not mirror any section's flag. -/
theorem dangling_link_is_highlighted_without_a_section :
    "blog" ≠ "" ∧
    ∃ link ∈ (showSection envMotion "blog" danglingLink).navLinks,
      link.active = true ∧ ¬ Mirrors (showSection envMotion "blog" danglingLink) link := by
  decide

/-- C7: the submit handler, as a function of the fetch outcome, assigns
`/thank-you.html` to the location if and only if the outcome is a response
whose status is between 200 and 299; for every other outcome (a response with
another status, or a rejection) it assigns no location and shows exactly the
alert "Oops! There was a problem submitting your form."; it shows no alert
exactly when it redirects; a rejection and a 500 response have the same page
effect, namely that alert and no location change. -/
theorem submit_redirects_iff_success_else_alerts (o : FetchOutcome) :
    ((submitHandler o).location = some "/thank-you.html" ↔
      ∃ status, o = .response status ∧ 200 ≤ status ∧ status ≤ 299) ∧
    (((submitHandler o).location = none ∧
        (submitHandler o).alerts = ["Oops! There was a problem submitting your form."]) ↔
      ¬ ∃ status, o = .response status ∧ 200 ≤ status ∧ status ≤ 299) ∧
    ((submitHandler o).alerts = [] ↔
      ∃ status, o = .response status ∧ 200 ≤ status ∧ status ≤ 299) ∧
    pageEffect (submitHandler .rejected) = pageEffect (submitHandler (.response 500)) ∧
    pageEffect (submitHandler (.response 500)) =
      (none, ["Oops! There was a problem submitting your form."]) := by
  have h500 : responseOk 500 = false := by decide
  cases o with
  | response status =>
    by_cases h : 200 ≤ status ∧ status ≤ 299
    · have hok : responseOk status = true := by simp [responseOk, h]
      simp [submitHandler, hok, h500, pageEffect, submitAlert, h]
    · have hok : responseOk status = false := by
        simp only [responseOk, Bool.and_eq_false_imp, decide_eq_true_eq,
          decide_eq_false_iff_not]
        intro h1 h2
        exact h ⟨h1, h2⟩
      have h' : ¬ (200 ≤ status ∧ status ≤ 299) := h
      simp [submitHandler, hok, h500, pageEffect, submitAlert, h']
  | rejected => simp [submitHandler, h500, pageEffect, submitAlert]

/-- C8, evaluated at the failing input: on a document that has every
looked-up element except the `join-jungle` button the main handler and the
contact-form handler complete, and the last handler throws. -/
theorem join_handler_throws_when_button_is_missing :
    mainHandler noJoinButton = .ok [Feature.menuToggleClick, Feature.menuCloseOnLink,
      Feature.navLinkClick, Feature.visualLayerInit, Feature.resizeListener,
      Feature.keydownListener, Feature.navPadding, Feature.initialShow] ∧
    contactHandler noJoinButton = .ok [Feature.contactSubmit] ∧
    joinHandler noJoinButton = .error "TypeError: joinBtn is null" := by
  refine ⟨rfl, rfl, rfl⟩

/-- C9, evaluated at the failing input: with reduced motion, loading
`twoSections` with an empty hash shows `home`; the reduced-motion block gives
`show` to both `.reveal` elements, then `initialShow()` removes it from the
child of the inactive section `about`. -/
theorem reduced_motion_load_leaves_inactive_reveal_hidden :
    (mainLoad envReduced twoSections).sections =
      [⟨"home", true, "false", [0]⟩, ⟨"about", false, "true", [1]⟩] ∧
    (mainLoad envReduced twoSections).reveals = [⟨true, ""⟩, ⟨false, ""⟩] ∧
    (mainLoad envReduced twoSections).reveals[1]?.map Reveal.shown = some false := by
  decide

/-- C10: `revealSection` on a container whose `.reveal` descendants are
`items` (distinct elements of the document, in document order). Without
reduced motion the child at index `k` gets `transitionDelay` equal to the
text of `k * 80` followed by `ms`, keeps its `show` state until the frame, has
`show` once the queued animation-frame callbacks have run, exactly one
callback per child is queued, and the delays are strictly increasing in `k`.
With reduced motion every child has `show` on return, no element's
`transitionDelay` changes and no callback is queued. -/
theorem revealSection_staggers_by_index (env : Env) (items : List Nat) (rs : List Reveal)
    (fr : List Nat) (hnd : items.Nodup) (hin : ∀ a ∈ items, a < rs.length) :
    (env.prefersReduced = false →
      (∀ k (hk : k < items.length),
        ((revealSection env items rs fr).1[items[k]]?).map Reveal.transitionDelay =
            some (toString (k * 80) ++ "ms") ∧
        ((revealSection env items rs fr).1[items[k]]?).map Reveal.shown =
            rs[items[k]]?.map Reveal.shown ∧
        ((showAll (revealSection env items rs fr).2
            (revealSection env items rs fr).1)[items[k]]?).map Reveal.shown = some true) ∧
      (revealSection env items rs fr).2 = fr ++ items ∧
      (∀ j k, j < k → delayMs j < delayMs k)) ∧
    (env.prefersReduced = true →
      (∀ a ∈ items, ((revealSection env items rs fr).1[a]?).map Reveal.shown = some true) ∧
      (∀ a : Nat, ((revealSection env items rs fr).1[a]?).map Reveal.transitionDelay =
          rs[a]?.map Reveal.transitionDelay) ∧
      (revealSection env items rs fr).2 = fr) := by
  constructor
  · intro hmotion
    rw [revealSection_of_motion env items rs fr hmotion]
    refine ⟨?_, stagger_frames 0 items rs fr, ?_⟩
    · intro k hk
      have hlt : items[k] < rs.length := hin _ (List.getElem_mem hk)
      have hsome : rs[items[k]]? = some rs[items[k]] := List.getElem?_eq_getElem hlt
      have hget := stagger_getElem?_index 0 items rs fr hnd k hk
      rw [Nat.zero_add, hsome] at hget
      refine ⟨?_, ?_, ?_⟩
      · rw [hget]
        rfl
      · rw [hget, hsome]
        rfl
      · rw [showAll_getElem?, stagger_frames, hget,
          if_pos (List.mem_append_right fr (List.getElem_mem hk))]
        rfl
    · intro j k hjk
      unfold delayMs
      omega
  · intro hreduced
    rw [revealSection_of_reduced env items rs fr hreduced]
    refine ⟨?_, ?_, rfl⟩
    · intro a ha
      have hlt : a < rs.length := hin a ha
      have hsome : rs[a]? = some rs[a] := List.getElem?_eq_getElem hlt
      rw [showAll_getElem?, if_pos ha, hsome]
      rfl
    · intro a
      rw [showAll_getElem?]
      split
      · rw [Option.map_map]
        rfl
      · rfl

/-- Witness for C10: the two `.reveal` elements of `twoSections`, taken as the
children of one container; the second child gets the delay `80ms`. -/
theorem revealSection_staggers_by_index_witness :
    ([0, 1] : List Nat).Nodup ∧ (∀ a ∈ ([0, 1] : List Nat), a < twoSections.reveals.length) ∧
    ((revealSection envMotion [0, 1] twoSections.reveals []).1[1]?).map
      Reveal.transitionDelay = some "80ms" :=
  ⟨by decide, by decide,
   (((revealSection_staggers_by_index envMotion [0, 1] twoSections.reveals []
      (by decide) (by decide)).1 rfl).1 1 (by decide)).1⟩

end Sloth
